import Mathlib

/- Verification development for the minitrace span-recording engine.

   The repository contains several overlapping design iterations; each is
   embedded in its own namespace:
   - `Reconcile`: the ScopeSpan/LocalSpans collector of src/trace/collector.rs
     together with the span conversion of src/span/mod.rs;
   - `Core`: the thread-local engine of src/trace.rs, the cross-thread handle
     of src/thread.rs and the channel collector of src/collector/sync_impl.rs;
   - `Legacy`: the drop behaviour of the trace handle in src/trace_async.rs.

   Machine integers (u64, u32, u16) are modelled as Nat, reduced modulo the
   width exactly where the Rust source performs wrapping arithmetic. -/

/- The u64 modulus. -/
def U64 : Nat := 18446744073709551616

/- Rust u64::wrapping_sub on values reduced modulo 2^64. -/
def wrapSub (a b : Nat) : Nat := (a + (U64 - b % U64)) % U64

/- utils.rs cycles_to_ns: (cycles as u128 * 1_000_000_000 / cycles_per_second)
   cast back to u64. -/
def cycles_to_ns (cycles cps : Nat) : Nat := cycles * 1000000000 / cps % U64

namespace Reconcile

/- Modelled from the spec: src/span/cycle.rs is not in the tree; per spec 4.1
   the anchor is a (cycle, unix_ns) pair recorded once, together with the
   cycle frequency. -/
structure Anchor where
  cycle : Nat
  unix_time_ns : Nat
  cycles_per_second : Nat
deriving DecidableEq

/- Modelled from the spec: cycle_to_unix_ns(c, anchor) = anchor.unix_ns +
   (c - anchor.cycle) * 1e9 / cycles_per_second, with the cycle difference
   clamped at zero (spec 4.1: any difference interpreted as elapsed is
   clamped to be nonnegative). -/
def cycleToUnixTimeNs (anchor : Anchor) (c : Nat) : Nat :=
  anchor.unix_time_ns + (c - anchor.cycle) * 1000000000 / anchor.cycles_per_second

/- RawSpan as consumed by src/trace/collector.rs: the fields of
   src/span/mod.rs (id, parent_id, begin_cycle, end_cycle, event, properties)
   plus the two bookkeeping fields _is_spawn_span and _descendant_count that
   collector.rs reads (their declaration is in a revision of span/mod.rs not
   in the tree; the spec describes them in 4.7). The event label and the
   property entries are identified by numeric codes. -/
structure RawSpan where
  id : Nat
  parent_id : Nat
  begin_cycle : Nat
  end_cycle : Nat
  event : Nat
  properties : List (Nat × List Nat)
  _is_spawn_span : Bool
  _descendant_count : Nat
deriving DecidableEq

/- Finalized span, src/span/mod.rs. -/
structure Span where
  id : Nat
  parent_id : Nat
  begin_unix_time_ns : Nat
  duration_ns : Nat
  event : Nat
  properties : List (Nat × List Nat)
deriving DecidableEq

/- Modelled from the spec: src/span/span_id.rs is not in the tree; id 0 is
   reserved for no parent (spec 4.2), so the root scope span is the one whose
   parent id is 0 (Scope::root in src/trace/scope.rs builds the root scope
   with parent SpanId::new(0)). -/
def RawSpan.is_root (s : RawSpan) : Bool := s.parent_id == 0

/- RawSpan::build_span, src/span/mod.rs lines 57 to 68. The u64 subtraction
   producing duration_ns is modelled with wrapping semantics. -/
def RawSpan.build_span (s : RawSpan) (anchor : Anchor) : Span :=
  let b := cycleToUnixTimeNs anchor s.begin_cycle
  let e := cycleToUnixTimeNs anchor s.end_cycle
  { id := s.id, parent_id := s.parent_id, begin_unix_time_ns := b,
    duration_ns := wrapSub e b, event := s.event, properties := s.properties }

/- SpanCollection as matched by src/trace/collector.rs (the declaring module
   src/trace/acquirer.rs is not in the tree; constructor shapes are exactly
   the patterns of collector.rs lines 66 to 115 and spec 4.6). -/
inductive SpanCollection where
  | ScopeSpan (span : RawSpan)
  | LocalSpans (spans : List RawSpan) (parent_span_id : Nat)
deriving DecidableEq

/- The inner loop of Collector::remove_unfinished_and_spawn_spans over one
   LocalSpans batch, src/trace/collector.rs lines 82 to 106. The state is
   (remaining_descendant_count, emitted spans so far, spawn-parent map); the
   HashMap is modelled as an association list where an insert prepends and a
   lookup takes the first match. -/
def processLocalSpans (anchor : Anchor) (parent_span_id : Nat) :
    List RawSpan → Nat → List Span → List (Nat × Nat) →
    List Span × List (Nat × Nat)
  | [], _, acc, m => (acc, m)
  | s :: rest, r, acc, m =>
    if r > 0 then
      if s._is_spawn_span then
        processLocalSpans anchor parent_span_id rest (r - 1) acc ((s.id, s.parent_id) :: m)
      else
        processLocalSpans anchor parent_span_id rest (r - 1) (acc ++ [s.build_span anchor]) m
    else if s.end_cycle == 0 then
      processLocalSpans anchor parent_span_id rest 0 acc m
    else if s._is_spawn_span then
      processLocalSpans anchor parent_span_id rest 0 acc ((s.id, parent_span_id) :: m)
    else
      processLocalSpans anchor parent_span_id rest s._descendant_count
        (acc ++ [({ s with parent_id := parent_span_id }).build_span anchor]) m

/- One step of the first loop of remove_unfinished_and_spawn_spans,
   src/trace/collector.rs lines 76 to 117. State: (emitted spans,
   pending scope spans, spawn-parent map). -/
def collectStep (anchor : Anchor) (parent_id_of_root : Nat)
    (st : List Span × List RawSpan × List (Nat × Nat)) (sc : SpanCollection) :
    List Span × List RawSpan × List (Nat × Nat) :=
  match sc with
  | SpanCollection.LocalSpans local_spans parent_span_id =>
    let r := processLocalSpans anchor parent_span_id local_spans 0 st.1 st.2.2
    (r.1, st.2.1, r.2)
  | SpanCollection.ScopeSpan s =>
    if s.is_root then
      (st.1 ++ [({ s with parent_id := parent_id_of_root }).build_span anchor], st.2.1, st.2.2)
    else
      (st.1, st.2.1 ++ [s], st.2.2)

/- The parent rewrite of the second loop, src/trace/collector.rs
   lines 119 to 124. -/
def resolveParent (m : List (Nat × Nat)) (s : RawSpan) : RawSpan :=
  match List.lookup s.parent_id m with
  | some p => { s with parent_id := p }
  | none => s

/- Collector::remove_unfinished_and_spawn_spans, src/trace/collector.rs
   lines 59 to 127. -/
def removeUnfinishedAndSpawnSpans (cols : List SpanCollection)
    (parent_id_of_root : Nat) (anchor : Anchor) : List Span :=
  let st := cols.foldl (collectStep anchor parent_id_of_root) ([], [], [])
  st.1 ++ st.2.1.map (fun s => (resolveParent st.2.2 s).build_span anchor)

/- The find_map locating the root scope span, src/trace/collector.rs
   lines 41 to 44. -/
def findRootScopeSpan (cols : List SpanCollection) : Option RawSpan :=
  cols.findSome? fun sc =>
    match sc with
    | SpanCollection.ScopeSpan s => if s.is_root then some s else none
    | SpanCollection.LocalSpans _ _ => none

/- Collector::collect, src/trace/collector.rs lines 24 to 54. The channel
   contents are passed as the already-drained list of span collections; the
   duration threshold is its nanosecond count. -/
def collect (duration_threshold : Option Nat) (parent_id_of_root : Option Nat)
    (span_collections : List SpanCollection) (anchor : Anchor) : List Span :=
  let pr := parent_id_of_root.getD 0
  let fallback := removeUnfinishedAndSpawnSpans span_collections pr anchor
  match duration_threshold with
  | none => fallback
  | some d =>
    match findRootScopeSpan span_collections with
    | none => fallback
    | some s =>
      let root_span := ({ s with parent_id := pr } : RawSpan).build_span anchor
      if root_span.duration_ns < d then [root_span] else fallback

/- Well-formedness of a LocalSpans batch, the shape guaranteed by the
   thread-local recorder through stack discipline (spec 4.3 and 5): every
   span inside the recorded descendant window of a finished span is itself
   finished (a child scope always closes before its parent closes). -/
def wellFormed : List RawSpan → Bool
  | [] => true
  | s :: rest =>
    (s.end_cycle == 0 || (rest.take s._descendant_count).all fun d => !(d.end_cycle == 0))
      && wellFormed rest

end Reconcile

namespace Core

/- State, src/trace.rs lines 165 to 169. -/
inductive State where
  | Normal
  | Pending
deriving DecidableEq

/- Span, src/trace.rs lines 171 to 179. The event label is its u32 code. -/
structure Span where
  id : Nat
  state : State
  parent_id : Nat
  begin_cycles : Nat
  elapsed_cycles : Nat
  event : Nat
deriving DecidableEq

/- Properties, src/trace.rs lines 208 to 213; payload bytes as Nats. -/
structure Properties where
  span_ids : List Nat
  property_lens : List Nat
  payload : List Nat
deriving DecidableEq

def Properties.empty : Properties := { span_ids := [], property_lens := [], payload := [] }

/- The Properties invariant from spec section 3: the lengths sum to the
   payload size and the parallel arrays have equal length. -/
def Properties.wf (p : Properties) : Prop :=
  p.property_lens.sum = p.payload.length ∧ p.span_ids.length = p.property_lens.length

instance (p : Properties) : Decidable p.wf :=
  inferInstanceAs (Decidable (_ ∧ _))

/- SpanSet, src/trace.rs lines 215 to 228. -/
structure SpanSet where
  trace_id : Nat
  start_time_ns : Nat
  cycles_per_second : Nat
  spans : List Span
  properties : Properties
deriving DecidableEq

/- TraceLocal, src/trace.rs lines 117 to 132. The u16 fields id_prefix and
   id_suffix are named prefixPart and suffixPart here; the boxed collector
   slot holds the identity of the underlying shared collector, so a
   clone_into_box is the same value. Vectors keep their source order
   (index 0 is the oldest element; Vec::push appends, Vec::last is the
   final element). -/
structure TraceLocal where
  prefixPart : Nat
  suffixPart : Nat
  enter_stack : List Nat
  spans : List Span
  properties : Properties
  trace_id : Nat
  start_time_ns : Nat
  collector : Option Nat
deriving DecidableEq

/- Id construction of TraceLocal::new_span_id, src/trace.rs line 137:
   ((id_prefix as u32) << 16) | id_suffix, on u16 parts. -/
def mkSpanId (p s : Nat) : Nat := p % 65536 * 65536 + s % 65536

/- next_global_id_prefix, src/trace.rs lines 38 to 40: fetch_add(1) on an
   AtomicU16 returns the previous value and wraps. The counter value is the
   argument; the result is (drawn prefix, new counter value). -/
def nextGlobalPrefixPart (g : Nat) : Nat × Nat := (g % 65536, (g + 1) % 65536)

/- The global counter value after n prefix draws; it starts at 1
   (src/trace.rs line 12). -/
def globalCounterAfter : Nat → Nat
  | 0 => 1
  | n + 1 => (nextGlobalPrefixPart (globalCounterAfter n)).2

/- The prefix handed out by the n-th draw (0-based). -/
def prefixDrawnAt (n : Nat) : Nat := (nextGlobalPrefixPart (globalCounterAfter n)).1

/- TraceLocal::new_span_id, src/trace.rs lines 136 to 147. Returns the id,
   the updated thread-local state and the updated global counter. -/
def TraceLocal.new_span_id (tl : TraceLocal) (g : Nat) : Nat × TraceLocal × Nat :=
  let id := mkSpanId tl.prefixPart tl.suffixPart
  if tl.suffixPart == 65535 then
    let d := nextGlobalPrefixPart g
    (id, { tl with suffixPart := 0, prefixPart := d.1 }, d.2)
  else
    (id, { tl with suffixPart := tl.suffixPart + 1 }, g)

/- TraceLocal::take_spans_and_properties, src/trace.rs lines 150 to 162:
   moves the closed spans and the property buffer out, leaving fresh empty
   containers. -/
def TraceLocal.take_spans_and_properties (tl : TraceLocal) :
    (List Span × Properties) × TraceLocal :=
  ((tl.spans, tl.properties), { tl with spans := [], properties := Properties.empty })

/- SpanGuardInner::enter, src/trace.rs lines 282 to 290: push onto the enter
   stack and the span vector; the guard keeps the span index. -/
def SpanGuardInner.enter (span : Span) (tl : TraceLocal) : TraceLocal × Nat :=
  ({ tl with enter_stack := tl.enter_stack ++ [span.id], spans := tl.spans ++ [span] },
   tl.spans.length)

/- start_trace, src/trace.rs lines 42 to 75. Besides the guard (the span
   index), the updated thread-local state and global counter, the model
   returns the list of span sets submitted to the supplied collector during
   the call; the source body contains no collect_span_set call, so that list
   is empty on both paths. -/
def start_trace (trace_id root_event collector : Nat) (tl : TraceLocal) (g : Nat)
    (begin_cycles start_time_ns : Nat) :
    Option Nat × TraceLocal × Nat × List SpanSet :=
  if tl.enter_stack.isEmpty then
    let r := tl.new_span_id g
    let root_span : Span :=
      { id := r.1, state := State.Normal, parent_id := 0,
        begin_cycles := begin_cycles, elapsed_cycles := 0, event := root_event }
    let e := SpanGuardInner.enter root_span r.2.1
    (some e.2,
     { e.1 with trace_id := trace_id, start_time_ns := start_time_ns,
                collector := some collector },
     r.2.2, [])
  else
    (none, tl, g, [])

/- append_property, src/trace.rs lines 309 to 329. -/
def append_property (tl : TraceLocal) (bytes : List Nat) : TraceLocal :=
  match tl.enter_stack.getLast? with
  | none => tl
  | some cur_span_id =>
    { tl with properties :=
        { span_ids := tl.properties.span_ids ++ [cur_span_id],
          property_lens := tl.properties.property_lens ++ [bytes.length],
          payload := tl.properties.payload ++ bytes } }

/- AsyncHandleInner, src/thread.rs lines 38 to 43. -/
structure AsyncHandleInner where
  trace_id : Nat
  collector : Option Nat
  next_pending_parent_id : Nat
  begin_cycles : Nat
deriving DecidableEq

/- AsyncHandle, src/thread.rs lines 45 to 49. -/
structure AsyncHandle where
  inner : Option AsyncHandleInner
deriving DecidableEq

/- new_async_handle, src/thread.rs lines 19 to 36; now is the cycle sample
   taken at capture. The function only reads the thread-local state. -/
def new_async_handle (tl : TraceLocal) (now : Nat) : AsyncHandle :=
  match tl.enter_stack.getLast? with
  | none => { inner := none }
  | some parent_id =>
    { inner := some
        { trace_id := tl.trace_id, collector := tl.collector,
          next_pending_parent_id := parent_id, begin_cycles := now } }

/- AsyncHandle::new_scope, src/thread.rs lines 69 to 116. Arguments beyond
   the source parameters supply the ambient samples: the global id counter g,
   the shared collector's closed flag, the cycle sample now_cycle, the wall
   clock real_now and the cycle frequency cps. Returns the payload (updated
   thread-local state and global counter) when a scope is opened, plus the
   handle state after the call (the closed path clears the collector). -/
def AsyncHandle.new_scope (inner : AsyncHandleInner) (event : Nat) (tl : TraceLocal)
    (g : Nat) (closed : Bool) (now_cycle real_now cps : Nat) :
    Option (TraceLocal × Nat) × AsyncHandleInner :=
  match inner.collector with
  | none => (none, inner)
  | some c =>
    if closed then
      (none, { inner with collector := none })
    else
      let elapsed_cycles := wrapSub now_cycle inner.begin_cycles
      let r1 := tl.new_span_id g
      let pending_span : Span :=
        { id := r1.1, state := State.Pending,
          parent_id := inner.next_pending_parent_id,
          begin_cycles := inner.begin_cycles,
          elapsed_cycles := elapsed_cycles, event := event }
      let tl2 := { r1.2.1 with spans := r1.2.1.spans ++ [pending_span] }
      let r2 := tl2.new_span_id r1.2.2
      let settle_span : Span :=
        { id := r2.1, state := State.Normal, parent_id := r1.1,
          begin_cycles := now_cycle, elapsed_cycles := 0, event := event }
      let tl3 := (SpanGuardInner.enter settle_span r2.2.1).1
      let tl4 := { tl3 with trace_id := inner.trace_id,
                            start_time_ns := real_now - cycles_to_ns elapsed_cycles cps,
                            collector := some c }
      (some (tl4, r2.2.2), { inner with next_pending_parent_id := r2.1 })

/- AsyncHandle::new_span, src/thread.rs lines 119 to 139; only reached with a
   non-empty enter stack (the source unwraps the top; the empty case is not
   reachable from start_trace and is modelled as the identity). -/
def AsyncHandle.new_span (inner : AsyncHandleInner) (event : Nat) (tl : TraceLocal)
    (g : Nat) (now_cycle : Nat) : TraceLocal × Nat × AsyncHandleInner :=
  match tl.enter_stack.getLast? with
  | none => (tl, g, inner)
  | some parent_id =>
    let r := tl.new_span_id g
    let sp : Span :=
      { id := r.1, state := State.Normal, parent_id := parent_id,
        begin_cycles := if inner.begin_cycles ≠ 0 then inner.begin_cycles else now_cycle,
        elapsed_cycles := 0, event := event }
    ((SpanGuardInner.enter sp r.2.1).1, r.2.2, { inner with begin_cycles := 0 })

/- The two guard shapes of AsyncGuard, src/thread.rs lines 142 to 145. -/
inductive GuardKind where
  | scopeGuard
  | spanGuard
deriving DecidableEq

/- AsyncHandle::start_trace, src/thread.rs lines 52 to 66. -/
def AsyncHandle.start_trace (h : AsyncHandle) (event : Nat) (tl : TraceLocal)
    (g : Nat) (closed : Bool) (now_cycle real_now cps : Nat) :
    Option GuardKind × TraceLocal × Nat × AsyncHandle :=
  match h.inner with
  | none => (none, tl, g, h)
  | some inner =>
    if tl.enter_stack.isEmpty then
      match AsyncHandle.new_scope inner event tl g closed now_cycle real_now cps with
      | (none, inner2) => (none, tl, g, { inner := some inner2 })
      | (some (tl2, g2), inner2) => (some GuardKind.scopeGuard, tl2, g2, { inner := some inner2 })
    else
      let r := AsyncHandle.new_span inner event tl g now_cycle
      (some GuardKind.spanGuard, r.1, r.2.1, { inner := some r.2.2 })

/- Dropping an AsyncHandle submits nothing: src/thread.rs declares no Drop
   implementation for AsyncHandle (lines 45 to 49); the only owned resource
   is the boxed collector clone, whose drop sends no message. -/
def AsyncHandle.dropSubmits (_h : AsyncHandle) : List SpanSet := []

/- The property merge performed by the drain loop of Finisher::finish,
   src/collector/sync_impl.rs lines 104 to 107. -/
def mergeProperties (a b : Properties) : Properties :=
  { span_ids := a.span_ids ++ b.span_ids,
    property_lens := a.property_lens ++ b.property_lens,
    payload := a.payload ++ b.payload }

/- The shared state behind SyncCollector and Finisher,
   src/collector/sync_impl.rs lines 26 to 29: the closed flag, the channel
   contents, and whether the receiver half still exists (try_send on a
   crossbeam channel succeeds exactly while the receiver is alive). -/
structure SyncState where
  is_closed : Bool
  receiver_alive : Bool
  queue : List SpanSet
deriving DecidableEq

/- SyncCollector::collect_span_set, src/collector/sync_impl.rs lines 51 to 53:
   an unconditional try_send; the closed flag is not consulted. -/
def SyncCollector.collect_span_set (st : SyncState) (ss : SpanSet) : SyncState :=
  if st.receiver_alive then { st with queue := st.queue ++ [ss] } else st

/- TraceResult, src/collector/sync_impl.rs lines 11 to 19, and its
   derived Default. -/
structure TraceResult where
  trace_id : Nat
  start_time_ns : Nat
  cycles_per_second : Nat
  elapsed_ns : Nat
  spans : List Span
  properties : Properties
deriving DecidableEq

def TraceResult.defaultResult : TraceResult :=
  { trace_id := 0, start_time_ns := 0, cycles_per_second := 0, elapsed_ns := 0,
    spans := [], properties := Properties.empty }

/- The closing store of Finisher::finish, src/collector/sync_impl.rs
   line 72. -/
def finishClose (st : SyncState) : SyncState := { st with is_closed := true }

/- The draining remainder of Finisher::finish, src/collector/sync_impl.rs
   lines 73 to 118: the first received span set seeds the result, the loop
   extends spans and properties with every further set; consuming the
   Finisher drops the receiver. -/
def finishDrain (st : SyncState) (start_time_ns now_ns cps : Nat) :
    TraceResult × SyncState :=
  let st2 : SyncState := { is_closed := st.is_closed, receiver_alive := false, queue := [] }
  match st.queue with
  | [] => (TraceResult.defaultResult, st2)
  | first :: rest =>
    ({ trace_id := first.trace_id, start_time_ns := start_time_ns,
       cycles_per_second := cps, elapsed_ns := now_ns - start_time_ns,
       spans := rest.foldl (fun acc ss => acc ++ ss.spans) first.spans,
       properties := rest.foldl (fun a ss => mergeProperties a ss.properties) first.properties },
     st2)

/- Finisher::finish, src/collector/sync_impl.rs lines 71 to 118. -/
def Finisher.finish (st : SyncState) (start_time_ns now_ns cps : Nat) :
    TraceResult × SyncState :=
  finishDrain (finishClose st) start_time_ns now_ns cps

end Core

namespace Legacy

/- Modelled from the spec: the State enum of the oldest design iteration is
   declared in a module not in the tree; spec section 3 lists the six span
   states, and src/trace_async.rs names Root, Local, Spawning and
   Scheduling. -/
inductive State where
  | Root
  | Local
  | Spawning
  | Scheduling
  | Settle
  | Pending
deriving DecidableEq

/- The Span shape pushed by the Drop of AsyncTraceInner,
   src/trace_async.rs lines 162 to 170. -/
structure Span where
  id : Nat
  state : State
  related_id : Nat
  begin_cycles : Nat
  elapsed_cycles : Nat
  event : Nat
deriving DecidableEq

/- The SpanSet pushed there, with Properties::default() attached. -/
structure SpanSet where
  spans : List Span
  properties : Core.Properties
deriving DecidableEq

/- AsyncTraceInner, src/trace_async.rs lines 5 to 16 (the shared collector is
   represented by its closed flag, passed at drop time). -/
structure AsyncTraceInner where
  next_suspending_state : State
  suspending_begin_cycles : Nat
  pending_event : Nat
  parent_id : Nat
  parent_begin_cycles : Nat
  parent_event : Nat
  parent_related_id : Nat
  parent_state : State
deriving DecidableEq

/- Drop for AsyncTraceInner, src/trace_async.rs lines 155 to 175: when the
   collector is not closed, push one SpanSet holding the single terminal span
   of the parent scope; otherwise push nothing. -/
def AsyncTraceInner.dropSubmits (inner : AsyncTraceInner) (closed : Bool)
    (now : Nat) : List SpanSet :=
  if closed then []
  else
    [{ spans := [{ id := inner.parent_id, state := inner.parent_state,
                   related_id := inner.parent_related_id,
                   begin_cycles := inner.parent_begin_cycles,
                   elapsed_cycles := wrapSub now inner.parent_begin_cycles,
                   event := inner.parent_event }],
       properties := Core.Properties.empty }]

end Legacy

/- A finalized span originates from a finished raw span of a batch when it is
   that raw span built as-is (the nested-descendant path of the reconciler) or
   built after the reparenting to the batch's parent scope (the top-level
   path). Spec-side predicate used to state that the reconciler never emits
   data of an unfinished span. -/
def Reconcile.originates (anchor : Reconcile.Anchor) (parent_span_id : Nat)
    (batch : List Reconcile.RawSpan) (out : Reconcile.Span) : Prop :=
  ∃ raw ∈ batch, raw.end_cycle ≠ 0 ∧
    (out = raw.build_span anchor ∨
     out = ({ raw with parent_id := parent_span_id } : Reconcile.RawSpan).build_span anchor)

namespace Fixtures

/- Concrete inputs used by witnesses and counterexamples. -/

def anchor0 : Reconcile.Anchor :=
  { cycle := 0, unix_time_ns := 1000, cycles_per_second := 1000000000 }

/- A finished root scope span. -/
def rootRaw : Reconcile.RawSpan :=
  { id := 1, parent_id := 0, begin_cycle := 10, end_cycle := 20, event := 7,
    properties := [], _is_spawn_span := false, _descendant_count := 2 }

/- An unfinished local span recording one descendant. -/
def unfinishedRaw : Reconcile.RawSpan :=
  { id := 2, parent_id := 1, begin_cycle := 11, end_cycle := 0, event := 8,
    properties := [], _is_spawn_span := false, _descendant_count := 1 }

/- The finished descendant recorded under unfinishedRaw. -/
def childRaw : Reconcile.RawSpan :=
  { id := 3, parent_id := 2, begin_cycle := 12, end_cycle := 15, event := 9,
    properties := [], _is_spawn_span := false, _descendant_count := 0 }

def exampleCols : List Reconcile.SpanCollection :=
  [Reconcile.SpanCollection.LocalSpans [unfinishedRaw, childRaw] 7,
   Reconcile.SpanCollection.ScopeSpan rootRaw]

def freshTl : Core.TraceLocal :=
  { prefixPart := 1, suffixPart := 0, enter_stack := [], spans := [],
    properties := Core.Properties.empty, trace_id := 0, start_time_ns := 0,
    collector := none }

def busyTl : Core.TraceLocal :=
  { prefixPart := 1, suffixPart := 3, enter_stack := [65536], spans := [],
    properties := Core.Properties.empty, trace_id := 4, start_time_ns := 11,
    collector := some 0 }

def exampleInner : Core.AsyncHandleInner :=
  { trace_id := 5, collector := some 0, next_pending_parent_id := 9,
    begin_cycles := 100 }

def exampleSpan : Core.Span :=
  { id := 1, state := Core.State.Normal, parent_id := 0, begin_cycles := 0,
    elapsed_cycles := 5, event := 2 }

def exampleSpanSet : Core.SpanSet :=
  { trace_id := 9, start_time_ns := 0, cycles_per_second := 0,
    spans := [exampleSpan], properties := Core.Properties.empty }

/- The collector state right after Finisher::finish stored closed=true,
   while the receiver is still alive and the channel is empty. -/
def closedAliveState : Core.SyncState :=
  { is_closed := true, receiver_alive := true, queue := [] }

def openState : Core.SyncState :=
  { is_closed := false, receiver_alive := true, queue := [] }

def deadState : Core.SyncState :=
  { is_closed := true, receiver_alive := false, queue := [] }

def exampleLegacyInner : Legacy.AsyncTraceInner :=
  { next_suspending_state := Legacy.State.Spawning, suspending_begin_cycles := 40,
    pending_event := 6, parent_id := 12, parent_begin_cycles := 30,
    parent_event := 5, parent_related_id := 4, parent_state := Legacy.State.Local }

end Fixtures

namespace Core

/- Allocating a span id only touches the two id-counter fields of the
   thread-local state. -/
theorem new_span_id_spans (tl : TraceLocal) (g : Nat) :
    ((tl.new_span_id g).2.1).spans = tl.spans := by
  unfold TraceLocal.new_span_id
  dsimp only
  split <;> rfl

theorem new_span_id_enter_stack (tl : TraceLocal) (g : Nat) :
    ((tl.new_span_id g).2.1).enter_stack = tl.enter_stack := by
  unfold TraceLocal.new_span_id
  dsimp only
  split <;> rfl

theorem new_span_id_properties (tl : TraceLocal) (g : Nat) :
    ((tl.new_span_id g).2.1).properties = tl.properties := by
  unfold TraceLocal.new_span_id
  dsimp only
  split <;> rfl

theorem new_span_id_fst (tl : TraceLocal) (g : Nat) :
    (tl.new_span_id g).1 = mkSpanId tl.prefixPart tl.suffixPart := by
  unfold TraceLocal.new_span_id
  dsimp only
  split <;> rfl

/- Closed form of the global prefix counter. -/
theorem globalCounterAfter_eq (n : Nat) : globalCounterAfter n = (1 + n) % 65536 := by
  induction n with
  | zero => rfl
  | succ k ih =>
    show (nextGlobalPrefixPart (globalCounterAfter k)).2 = _
    rw [ih]
    unfold nextGlobalPrefixPart
    dsimp only
    omega

theorem prefixDrawnAt_eq (n : Nat) : prefixDrawnAt n = (1 + n) % 65536 := by
  unfold prefixDrawnAt nextGlobalPrefixPart
  rw [globalCounterAfter_eq]
  dsimp only
  omega

end Core

/-- C1: if Collector::collect is given a duration threshold T and the drained
span collections contain the root ScopeSpan (the first one found, and a trace
has exactly one) whose finalized duration_ns is below T, the returned list is
exactly the root span with its parent_id rewritten to parent_id_of_root
(0 when absent), regardless of what else was submitted. -/
theorem C1_collect_short_circuits_on_cheap_root
    (d : Nat) (p : Option Nat) (cols : List Reconcile.SpanCollection)
    (anchor : Reconcile.Anchor) (s : Reconcile.RawSpan)
    (hroot : Reconcile.findRootScopeSpan cols = some s)
    (hdur : (({ s with parent_id := p.getD 0 } : Reconcile.RawSpan).build_span anchor).duration_ns < d) :
    Reconcile.collect (some d) p cols anchor
      = [({ s with parent_id := p.getD 0 } : Reconcile.RawSpan).build_span anchor] := by
  unfold Reconcile.collect
  rw [hroot]
  dsimp only
  rw [if_pos hdur]

/-- Witness for C1: a trace with a cheap root (duration 10 ns, threshold
1000 ns) plus a local batch of two extra spans collapses to the single
rewritten root span. -/
theorem C1_witness :
    Reconcile.findRootScopeSpan Fixtures.exampleCols = some Fixtures.rootRaw ∧
    (({ Fixtures.rootRaw with parent_id := (some 42 : Option Nat).getD 0 } : Reconcile.RawSpan).build_span
        Fixtures.anchor0).duration_ns < 1000 ∧
    Reconcile.collect (some 1000) (some 42) Fixtures.exampleCols Fixtures.anchor0
      = [({ Fixtures.rootRaw with parent_id := (some 42 : Option Nat).getD 0 } : Reconcile.RawSpan).build_span
          Fixtures.anchor0] :=
  ⟨by decide, by decide,
   C1_collect_short_circuits_on_cheap_root 1000 (some 42) Fixtures.exampleCols
     Fixtures.anchor0 Fixtures.rootRaw (by decide) (by decide)⟩

/-- C8: append_property with a non-empty enter stack appends exactly one entry
to each of the three property arrays (the top-of-stack span id, the byte
length, the bytes) and changes nothing else; with an empty stack it is a
no-op. -/
theorem C8_append_property_spec (tl : Core.TraceLocal) (bytes : List Nat) :
    (tl.enter_stack = [] → Core.append_property tl bytes = tl) ∧
    (∀ cur, tl.enter_stack.getLast? = some cur →
      Core.append_property tl bytes =
        { tl with properties :=
            { span_ids := tl.properties.span_ids ++ [cur],
              property_lens := tl.properties.property_lens ++ [bytes.length],
              payload := tl.properties.payload ++ bytes } }) := by
  constructor
  · intro h
    unfold Core.append_property
    rw [h]
    rfl
  · intro cur h
    unfold Core.append_property
    rw [h]

/-- Witness for C8: both branches at concrete states. -/
theorem C8_witness :
    Core.append_property Fixtures.freshTl [1, 2] = Fixtures.freshTl ∧
    Core.append_property Fixtures.busyTl [1, 2] =
      { Fixtures.busyTl with properties :=
          { span_ids := Fixtures.busyTl.properties.span_ids ++ [65536],
            property_lens := Fixtures.busyTl.properties.property_lens ++ [2],
            payload := Fixtures.busyTl.properties.payload ++ [1, 2] } } :=
  ⟨(C8_append_property_spec Fixtures.freshTl [1, 2]).1 rfl,
   (C8_append_property_spec Fixtures.busyTl [1, 2]).2 65536 rfl⟩

/-- C10: start_trace on a thread with a non-empty enter stack returns None and
leaves the thread-local state untouched, submitting nothing to the supplied
collector; on an empty stack it returns a guard, pushes exactly one root span
(parent_id 0) onto the stack and the span vector, and installs the trace id,
start time and collector, still submitting nothing. -/
theorem C10_start_trace_spec
    (trace_id root_event collector : Nat) (tl : Core.TraceLocal) (g : Nat)
    (begin_cycles start_time_ns : Nat) :
    (tl.enter_stack ≠ [] →
      Core.start_trace trace_id root_event collector tl g begin_cycles start_time_ns
        = (none, tl, g, [])) ∧
    (tl.enter_stack = [] →
      Core.start_trace trace_id root_event collector tl g begin_cycles start_time_ns
        = (some tl.spans.length,
           { prefixPart := ((tl.new_span_id g).2.1).prefixPart,
             suffixPart := ((tl.new_span_id g).2.1).suffixPart,
             enter_stack := [(tl.new_span_id g).1],
             spans := tl.spans ++
               [{ id := (tl.new_span_id g).1, state := Core.State.Normal, parent_id := 0,
                  begin_cycles := begin_cycles, elapsed_cycles := 0, event := root_event }],
             properties := tl.properties,
             trace_id := trace_id, start_time_ns := start_time_ns,
             collector := some collector },
           (tl.new_span_id g).2.2, [])) := by
  constructor
  · intro h
    unfold Core.start_trace
    rw [if_neg (by simpa [List.isEmpty_iff] using h)]
  · intro h
    unfold Core.start_trace
    rw [if_pos (by simpa [List.isEmpty_iff] using h)]
    unfold Core.SpanGuardInner.enter
    dsimp only
    rw [Core.new_span_id_spans, Core.new_span_id_enter_stack, Core.new_span_id_properties, h]
    rfl

/-- Witness for C10: both branches at concrete states. -/
theorem C10_witness :
    Core.start_trace 3 6 0 Fixtures.busyTl 5 50 2000 = (none, Fixtures.busyTl, 5, []) ∧
    Core.start_trace 3 6 0 Fixtures.freshTl 5 50 2000
      = (some 0,
         { prefixPart := 1, suffixPart := 1, enter_stack := [65536],
           spans := [{ id := 65536, state := Core.State.Normal, parent_id := 0,
                       begin_cycles := 50, elapsed_cycles := 0, event := 6 }],
           properties := Core.Properties.empty, trace_id := 3, start_time_ns := 2000,
           collector := some 0 },
         5, []) := by
  constructor
  · exact (C10_start_trace_spec 3 6 0 Fixtures.busyTl 5 50 2000).1 (by decide)
  · have h := (C10_start_trace_spec 3 6 0 Fixtures.freshTl 5 50 2000).2 rfl
    rw [h]
    decide

/-- C5: capturing a handle on a thread with an empty enter stack yields a
dormant handle (inner is None), and start_trace on a dormant handle returns
None and leaves the thread-local tracing state unchanged. -/
theorem C5_dormant_handle_spec :
    (∀ tl now, tl.enter_stack = [] → Core.new_async_handle tl now = { inner := none }) ∧
    (∀ event tl g closed now_cycle real_now cps,
      Core.AsyncHandle.start_trace { inner := none } event tl g closed now_cycle real_now cps
        = (none, tl, g, { inner := none })) := by
  constructor
  · intro tl now h
    unfold Core.new_async_handle
    rw [h]
    rfl
  · intro event tl g closed now_cycle real_now cps
    rfl

/-- Witness for C5 at a concrete state. -/
theorem C5_witness :
    Core.new_async_handle Fixtures.freshTl 77 = { inner := none } ∧
    Core.AsyncHandle.start_trace { inner := none } 3 Fixtures.busyTl 5 false 10 20 30
      = (none, Fixtures.busyTl, 5, { inner := none }) :=
  ⟨C5_dormant_handle_spec.1 Fixtures.freshTl 77 rfl,
   C5_dormant_handle_spec.2 3 Fixtures.busyTl 5 false 10 20 30⟩

namespace Core

/- Merging two well-formed property blocks yields a well-formed block. -/
theorem mergeProperties_wf (a b : Properties) (ha : a.wf) (hb : b.wf) :
    (mergeProperties a b).wf := by
  obtain ⟨ha1, ha2⟩ := ha
  obtain ⟨hb1, hb2⟩ := hb
  unfold mergeProperties Properties.wf
  constructor
  · simp [List.sum_append, ha1, hb1]
  · simp [ha2, hb2]

theorem foldl_mergeProperties_wf (l : List SpanSet) :
    ∀ a : Properties, a.wf → (∀ ss ∈ l, ss.properties.wf) →
      (l.foldl (fun a ss => mergeProperties a ss.properties) a).wf := by
  induction l with
  | nil => intro a ha _; exact ha
  | cons s rest ih =>
    intro a ha hl
    exact ih (mergeProperties a s.properties)
      (mergeProperties_wf a s.properties ha (hl s (List.mem_cons_self s rest)))
      (fun ss hss => hl ss (List.mem_cons_of_mem s hss))

theorem Properties.empty_wf : Properties.empty.wf := ⟨rfl, rfl⟩

end Core

/-- C9: the Properties invariant (sum of property_lens equals the payload
length, and span_ids and property_lens have equal length) is preserved by
append_property, by take_spans_and_properties (both the value moved out and
the fresh replacement), and by the property merge of Finisher::finish. -/
theorem C9_properties_invariant :
    (∀ tl bytes, tl.properties.wf → (Core.append_property tl bytes).properties.wf) ∧
    (∀ tl : Core.TraceLocal, tl.properties.wf → (tl.take_spans_and_properties).1.2.wf) ∧
    (∀ tl : Core.TraceLocal, (tl.take_spans_and_properties).2.properties.wf) ∧
    (∀ (st : Core.SyncState) (a b c : Nat), (∀ ss ∈ st.queue, ss.properties.wf) →
      ((Core.Finisher.finish st a b c).1).properties.wf) := by
  refine ⟨?_, ?_, ?_, ?_⟩
  · intro tl bytes h
    obtain ⟨h1, h2⟩ := h
    unfold Core.append_property
    match hl : tl.enter_stack.getLast? with
    | none => exact ⟨h1, h2⟩
    | some cur =>
      constructor
      · simp [List.sum_append, h1]
      · simp [h2]
  · intro tl h
    exact h
  · intro tl
    exact Core.Properties.empty_wf
  · intro st a b c h
    unfold Core.Finisher.finish Core.finishDrain
    have hq2 : (Core.finishClose st).queue = st.queue := rfl
    rw [hq2]
    match hq : st.queue with
    | [] => exact Core.Properties.empty_wf
    | first :: rest =>
      dsimp only
      exact Core.foldl_mergeProperties_wf rest first.properties
        (h first (hq ▸ List.mem_cons_self first rest))
        (fun ss hss => h ss (hq ▸ List.mem_cons_of_mem first hss))

/-- Witness for C9 at concrete states: a property append on an active trace,
a take, and a drain of two submitted span sets. -/
theorem C9_witness :
    (Core.append_property Fixtures.busyTl [1, 2, 3]).properties.wf ∧
    (Fixtures.busyTl.take_spans_and_properties).1.2.wf ∧
    (Fixtures.busyTl.take_spans_and_properties).2.properties.wf ∧
    ((Core.Finisher.finish
        { is_closed := false, receiver_alive := true,
          queue := [Fixtures.exampleSpanSet, Fixtures.exampleSpanSet] } 0 9 1).1).properties.wf :=
  ⟨C9_properties_invariant.1 Fixtures.busyTl [1, 2, 3] (by decide),
   C9_properties_invariant.2.1 Fixtures.busyTl (by decide),
   C9_properties_invariant.2.2.1 Fixtures.busyTl,
   C9_properties_invariant.2.2.2 _ 0 9 1 (by decide)⟩

/-- C7 counterexample: the global prefix counter is a wrapping AtomicU16, so
the 65536-th prefix draw of a process returns 0 (the counter starts at 1),
and the first new_span_id on a thread initialized with that prefix returns
the id 0 — the value the claim says is never produced. -/
theorem C7_counterexample :
    Core.prefixDrawnAt 65535 = 0 ∧
    (Core.TraceLocal.new_span_id
      { prefixPart := Core.prefixDrawnAt 65535, suffixPart := 0, enter_stack := [],
        spans := [], properties := Core.Properties.empty, trace_id := 0,
        start_time_ns := 0, collector := none } 0).1 = 0 := by
  have h : Core.prefixDrawnAt 65535 = 0 := by rw [Core.prefixDrawnAt_eq]
  refine ⟨h, ?_⟩
  rw [Core.new_span_id_fst]
  dsimp only
  rw [h]
  rfl

/-- C7 amended: span ids are prefix*2^16 + suffix on u16 parts; ids built
from distinct (prefix, suffix) pairs are distinct and an id is 0 exactly when
both parts are 0, and the first 2^16 - 1 global prefix draws of a process are
pairwise distinct and nonzero — so all ids are distinct and nonzero until the
global prefix counter wraps, but not afterwards. -/
theorem C7_amended_id_uniqueness :
    (∀ i j, i < j → j < 65535 →
      Core.prefixDrawnAt i ≠ Core.prefixDrawnAt j ∧ Core.prefixDrawnAt i ≠ 0) ∧
    (∀ p s q t, p < 65536 → s < 65536 → q < 65536 → t < 65536 →
      Core.mkSpanId p s = Core.mkSpanId q t → p = q ∧ s = t) ∧
    (∀ p s, p < 65536 → s < 65536 → (Core.mkSpanId p s = 0 ↔ p = 0 ∧ s = 0)) ∧
    (∀ (tl : Core.TraceLocal) (g : Nat),
      (tl.new_span_id g).1 = Core.mkSpanId tl.prefixPart tl.suffixPart) := by
  refine ⟨?_, ?_, ?_, Core.new_span_id_fst⟩
  · intro i j hij hj
    rw [Core.prefixDrawnAt_eq, Core.prefixDrawnAt_eq]
    omega
  · intro p s q t hp hs hq ht h
    unfold Core.mkSpanId at h
    omega
  · intro p s hp hs
    unfold Core.mkSpanId
    omega

/-- Witness for C7 amended: distinct early draws, id injectivity and the zero
characterization at concrete values. -/
theorem C7_amended_witness :
    (Core.prefixDrawnAt 0 ≠ Core.prefixDrawnAt 1 ∧ Core.prefixDrawnAt 0 ≠ 0) ∧
    ((3 : Nat) = 3 ∧ (4 : Nat) = 4) ∧
    (Core.mkSpanId 3 4 = 0 ↔ (3 : Nat) = 0 ∧ (4 : Nat) = 0) :=
  ⟨C7_amended_id_uniqueness.1 0 1 (by decide) (by decide),
   C7_amended_id_uniqueness.2.1 3 4 3 4 (by decide) (by decide) (by decide) (by decide) rfl,
   C7_amended_id_uniqueness.2.2.1 3 4 (by decide) (by decide)⟩

/-- C4 counterexample: SyncCollector::collect_span_set does not consult the
closed flag — it is an unconditional try_send. A submission arriving after
the closed flag was stored (the first statement of Finisher::finish) but
before the drain loop runs is enqueued while the receiver is still alive, and
the drained output then contains it: the final output is not identical to the
run without the submission. -/
theorem C4_counterexample :
    Fixtures.closedAliveState.is_closed = true ∧
    (Core.finishDrain
        (Core.SyncCollector.collect_span_set Fixtures.closedAliveState Fixtures.exampleSpanSet)
        0 0 0).1
      ≠ (Core.finishDrain Fixtures.closedAliveState 0 0 0).1 := by
  constructor
  · rfl
  · decide

/-- C4 amended: a submission through the trace-handle drop path
(trace_async's AsyncTraceInner) checks the closed flag and is a silent no-op
when it is set; SyncCollector::collect_span_set does not check the flag and
is a no-op only once the receiver half of the channel is gone, which is the
case once Finisher::finish has returned — a submission landing between the
closed store and the drain still reaches the output. -/
theorem C4_amended_late_submission :
    (∀ st ss, st.receiver_alive = false → Core.SyncCollector.collect_span_set st ss = st) ∧
    (∀ (st : Core.SyncState) (a b c : Nat),
      ((Core.Finisher.finish st a b c).2).receiver_alive = false) ∧
    (∀ inner now, Legacy.AsyncTraceInner.dropSubmits inner true now = []) := by
  refine ⟨?_, ?_, ?_⟩
  · intro st ss h
    unfold Core.SyncCollector.collect_span_set
    rw [h]
    rfl
  · intro st a b c
    unfold Core.Finisher.finish Core.finishDrain
    match hq : (Core.finishClose st).queue with
    | [] => rfl
    | first :: rest => rfl
  · intro inner now
    rfl

/-- Witness for C4 amended: a submission to a drained collector is dropped. -/
theorem C4_amended_witness :
    Core.SyncCollector.collect_span_set Fixtures.deadState Fixtures.exampleSpanSet
      = Fixtures.deadState ∧
    ((Core.Finisher.finish Fixtures.openState 0 0 0).2).receiver_alive = false ∧
    Legacy.AsyncTraceInner.dropSubmits Fixtures.exampleLegacyInner true 99 = [] :=
  ⟨C4_amended_late_submission.1 Fixtures.deadState Fixtures.exampleSpanSet rfl,
   C4_amended_late_submission.2.1 Fixtures.openState 0 0 0,
   C4_amended_late_submission.2.2 Fixtures.exampleLegacyInner 99⟩

/-- C6 counterexample: the claim quantifies over every trace handle, but the
AsyncHandle of src/thread.rs has no Drop implementation: dropping a live
(non-dormant) handle whose collector is still open submits nothing at all,
not one terminal span. -/
theorem C6_counterexample :
    Core.AsyncHandle.dropSubmits { inner := some Fixtures.exampleInner } = [] ∧
    Fixtures.openState.is_closed = false :=
  ⟨rfl, rfl⟩

/- Wrapping subtraction undoes wrapping addition on u64 values. -/
theorem wrapSub_cancel (b n : Nat) (_hb : b < U64) (hn : n < U64) :
    (b + wrapSub n b) % U64 = n := by
  unfold wrapSub U64 at *
  omega

/-- C3: whenever AsyncHandle::start_trace takes the new-scope path (the
collector is present and open), the Pending span and the Settle span pushed
by new_scope are adjacent at the end of the thread-local span vector and
satisfy pending.begin_cycles + pending.elapsed_cycles = settle.begin_cycles
in u64 arithmetic (both ends come from the same cycle sample), and the Settle
span's parent_id is the Pending span's id. -/
theorem C3_pending_settle_chain
    (inner : Core.AsyncHandleInner) (event : Nat) (tl : Core.TraceLocal)
    (g : Nat) (now_cycle real_now cps c : Nat)
    (hc : inner.collector = some c)
    (hb : inner.begin_cycles < U64) (hn : now_cycle < U64) :
    ∃ pending settle tl2 g2,
      (Core.AsyncHandle.new_scope inner event tl g false now_cycle real_now cps).1
        = some (tl2, g2) ∧
      tl2.spans = tl.spans ++ [pending, settle] ∧
      pending.state = Core.State.Pending ∧
      settle.state = Core.State.Normal ∧
      (pending.begin_cycles + pending.elapsed_cycles) % U64 = settle.begin_cycles ∧
      settle.parent_id = pending.id := by
  unfold Core.AsyncHandle.new_scope
  rw [hc]
  dsimp only
  rw [if_neg (by decide : ¬((false : Bool) = true))]
  refine ⟨{ id := (tl.new_span_id g).1, state := Core.State.Pending,
            parent_id := inner.next_pending_parent_id,
            begin_cycles := inner.begin_cycles,
            elapsed_cycles := wrapSub now_cycle inner.begin_cycles, event := event },
          { id := (Core.TraceLocal.new_span_id
              { (tl.new_span_id g).2.1 with
                  spans := ((tl.new_span_id g).2.1).spans ++
                    [{ id := (tl.new_span_id g).1, state := Core.State.Pending,
                       parent_id := inner.next_pending_parent_id,
                       begin_cycles := inner.begin_cycles,
                       elapsed_cycles := wrapSub now_cycle inner.begin_cycles,
                       event := event }] } (tl.new_span_id g).2.2).1,
            state := Core.State.Normal, parent_id := (tl.new_span_id g).1,
            begin_cycles := now_cycle, elapsed_cycles := 0, event := event },
          _, _, rfl, ?_, rfl, rfl, ?_, rfl⟩
  · simp only [Core.SpanGuardInner.enter, Core.new_span_id_spans, List.append_assoc,
      List.singleton_append, List.cons_append, List.nil_append]
  · exact wrapSub_cancel inner.begin_cycles now_cycle hb hn

/-- Witness for C3: a concrete handle resumed at cycle 150 after a suspension
that began at cycle 100. -/
theorem C3_witness :
    ∃ pending settle tl2 g2,
      (Core.AsyncHandle.new_scope Fixtures.exampleInner 3 Fixtures.freshTl 2
          false 150 1000 1000000000).1 = some (tl2, g2) ∧
      tl2.spans = Fixtures.freshTl.spans ++ [pending, settle] ∧
      pending.state = Core.State.Pending ∧
      settle.state = Core.State.Normal ∧
      (pending.begin_cycles + pending.elapsed_cycles) % U64 = settle.begin_cycles ∧
      settle.parent_id = pending.id :=
  C3_pending_settle_chain Fixtures.exampleInner 3 Fixtures.freshTl 2 150 1000
    1000000000 0 rfl (by decide) (by decide)

namespace Reconcile

theorem originates_cons {anchor : Anchor} {pid : Nat} {s : RawSpan}
    {rest : List RawSpan} {out : Span} (h : originates anchor pid rest out) :
    originates anchor pid (s :: rest) out := by
  obtain ⟨raw, hmem, hfin, hshape⟩ := h
  exact ⟨raw, List.mem_cons_of_mem s hmem, hfin, hshape⟩

/- Every span emitted by the scan over one LocalSpans batch either was in the
   accumulator already or originates from a finished raw span of the batch,
   provided the batch is well formed and the first r entries (the still-open
   descendant window) are finished. -/
theorem processLocalSpans_origin (anchor : Anchor) (pid : Nat) :
    ∀ (batch : List RawSpan) (r : Nat) (acc : List Span) (m : List (Nat × Nat)),
      wellFormed batch = true →
      ((batch.take r).all fun d => !(d.end_cycle == 0)) = true →
      ∀ out ∈ (processLocalSpans anchor pid batch r acc m).1,
        out ∈ acc ∨ originates anchor pid batch out := by
  intro batch
  induction batch with
  | nil =>
    intro r acc m _ _ out hout
    exact Or.inl hout
  | cons s rest ih =>
    intro r acc m hwf htake out hout
    unfold wellFormed at hwf
    rw [Bool.and_eq_true] at hwf
    obtain ⟨hwf1, hwfr⟩ := hwf
    unfold processLocalSpans at hout
    by_cases hr : r > 0
    · rw [if_pos hr] at hout
      obtain ⟨r', rfl⟩ : ∃ r', r = r' + 1 := ⟨r - 1, by omega⟩
      rw [List.take_succ_cons, List.all_cons, Bool.and_eq_true] at htake
      obtain ⟨hsfin, htake'⟩ := htake
      have hsfin' : s.end_cycle ≠ 0 := by simpa using hsfin
      by_cases hsp : s._is_spawn_span
      · rw [if_pos hsp] at hout
        have hout' : out ∈ (processLocalSpans anchor pid rest r' acc ((s.id, s.parent_id) :: m)).1 := by
          simpa using hout
        rcases ih r' acc _ hwfr htake' out hout' with h | h
        · exact Or.inl h
        · exact Or.inr (originates_cons h)
      · rw [if_neg hsp] at hout
        have hout' : out ∈ (processLocalSpans anchor pid rest r' (acc ++ [s.build_span anchor]) m).1 := by
          simpa using hout
        rcases ih r' (acc ++ [s.build_span anchor]) m hwfr htake' out hout' with h | h
        · rcases List.mem_append.mp h with h | h
          · exact Or.inl h
          · refine Or.inr ⟨s, List.mem_cons_self s rest, hsfin', Or.inl ?_⟩
            simpa using h
        · exact Or.inr (originates_cons h)
    · rw [if_neg hr] at hout
      by_cases hz : (s.end_cycle == 0) = true
      · rw [if_pos hz] at hout
        rcases ih 0 acc m hwfr (by simp) out hout with h | h
        · exact Or.inl h
        · exact Or.inr (originates_cons h)
      · rw [if_neg hz] at hout
        have hsfin' : s.end_cycle ≠ 0 := by simpa using hz
        by_cases hsp : s._is_spawn_span
        · rw [if_pos hsp] at hout
          rcases ih 0 acc _ hwfr (by simp) out hout with h | h
          · exact Or.inl h
          · exact Or.inr (originates_cons h)
        · rw [if_neg hsp] at hout
          have htake2 : ((rest.take s._descendant_count).all fun d => !(d.end_cycle == 0)) = true := by
            rcases Bool.or_eq_true _ _ ▸ hwf1 with h | h
            · exact absurd h hz
            · exact h
          rcases ih s._descendant_count
              (acc ++ [({ s with parent_id := pid } : RawSpan).build_span anchor]) m
              hwfr htake2 out hout with h | h
          · rcases List.mem_append.mp h with h | h
            · exact Or.inl h
            · refine Or.inr ⟨s, List.mem_cons_self s rest, hsfin', Or.inr ?_⟩
              simpa using h
          · exact Or.inr (originates_cons h)

/- The scan only appends to the accumulator. -/
theorem processLocalSpans_acc_mono (anchor : Anchor) (pid : Nat) :
    ∀ (batch : List RawSpan) (r : Nat) (acc : List Span) (m : List (Nat × Nat)) (x : Span),
      x ∈ acc → x ∈ (processLocalSpans anchor pid batch r acc m).1 := by
  intro batch
  induction batch with
  | nil =>
    intro r acc m x hx
    exact hx
  | cons s rest ih =>
    intro r acc m x hx
    unfold processLocalSpans
    split
    · split
      · exact ih _ _ _ _ hx
      · exact ih _ _ _ _ (List.mem_append_left _ hx)
    · split
      · exact ih _ _ _ _ hx
      · split
        · exact ih _ _ _ _ hx
        · exact ih _ _ _ _ (List.mem_append_left _ hx)

theorem collectStep_acc_mono (anchor : Anchor) (pr : Nat)
    (st : List Span × List RawSpan × List (Nat × Nat)) (sc : SpanCollection)
    (x : Span) (hx : x ∈ st.1) : x ∈ (collectStep anchor pr st sc).1 := by
  cases sc with
  | LocalSpans ls pid =>
    exact processLocalSpans_acc_mono anchor pid ls 0 st.1 st.2.2 x hx
  | ScopeSpan s =>
    unfold collectStep
    dsimp only
    split
    · exact List.mem_append_left _ hx
    · exact hx

theorem foldl_collectStep_acc_mono (anchor : Anchor) (pr : Nat) :
    ∀ (cols : List SpanCollection) (st : List Span × List RawSpan × List (Nat × Nat)) (x : Span),
      x ∈ st.1 → x ∈ (cols.foldl (collectStep anchor pr) st).1 := by
  intro cols
  induction cols with
  | nil =>
    intro st x hx
    exact hx
  | cons sc rest ih =>
    intro st x hx
    exact ih _ x (collectStep_acc_mono anchor pr st sc x hx)

/- A root scope span present among the drained collections is emitted by the
   first loop, with its parent id rewritten. -/
theorem root_mem_foldl (anchor : Anchor) (pr : Nat) :
    ∀ (cols : List SpanCollection) (st : List Span × List RawSpan × List (Nat × Nat))
      (s : RawSpan), SpanCollection.ScopeSpan s ∈ cols → s.is_root = true →
      ({ s with parent_id := pr } : RawSpan).build_span anchor
        ∈ (cols.foldl (collectStep anchor pr) st).1 := by
  intro cols
  induction cols with
  | nil =>
    intro st s h
    exact absurd h (List.not_mem_nil _)
  | cons sc rest ih =>
    intro st s hmem hroot
    rw [List.foldl_cons]
    rcases List.mem_cons.mp hmem with heq | htail
    · subst heq
      refine foldl_collectStep_acc_mono anchor pr rest _ _ ?_
      unfold collectStep
      dsimp only
      rw [if_pos hroot]
      exact List.mem_append_right _ (List.mem_singleton.mpr rfl)
    · exact ih _ s htail hroot

end Reconcile

/-- C2 counterexample: a well-formed LocalSpans batch holding an unfinished
span (id 2, end_cycle 0) that records exactly one descendant (id 3, finished)
is reconciled to an output that still contains the descendant id 3
(reparented to the batch's parent scope), together with the root id 1: the
recorded descendant subtree of a dropped unfinished span is not skipped,
because the end_cycle test sets no descendant window. -/
theorem C2_counterexample :
    Fixtures.unfinishedRaw.end_cycle = 0 ∧
    Fixtures.unfinishedRaw._descendant_count = 1 ∧
    Reconcile.wellFormed [Fixtures.unfinishedRaw, Fixtures.childRaw] = true ∧
    (Reconcile.removeUnfinishedAndSpawnSpans Fixtures.exampleCols 0 Fixtures.anchor0).map
        (fun s => s.id) = [3, 1] :=
  ⟨rfl, rfl, by decide, by decide⟩

/-- C2 amended: in the reconciliation pass, every span emitted from a
well-formed LocalSpans batch (descendant windows of finished spans contain
only finished spans, which the stack discipline of the recorder guarantees)
originates from a finished raw span of the batch — so every span whose
end_cycle is 0 is absent from the output — while the recorded descendants of
such an unfinished span are not skipped: finished ones are emitted, those in
top position reparented to the batch's parent scope id; and the root
ScopeSpan is always emitted with its parent rewritten to parent_id_of_root. -/
theorem C2_unfinished_pruning :
    (∀ (anchor : Reconcile.Anchor) (pid : Nat) (batch : List Reconcile.RawSpan)
        (m : List (Nat × Nat)),
      Reconcile.wellFormed batch = true →
      ∀ out ∈ (Reconcile.processLocalSpans anchor pid batch 0 [] m).1,
        Reconcile.originates anchor pid batch out) ∧
    (∀ (anchor : Reconcile.Anchor) (pr : Nat) (cols : List Reconcile.SpanCollection)
        (s : Reconcile.RawSpan),
      Reconcile.SpanCollection.ScopeSpan s ∈ cols → s.is_root = true →
      ({ s with parent_id := pr } : Reconcile.RawSpan).build_span anchor
        ∈ Reconcile.removeUnfinishedAndSpawnSpans cols pr anchor) := by
  constructor
  · intro anchor pid batch m hwf out hout
    rcases Reconcile.processLocalSpans_origin anchor pid batch 0 [] m hwf (by simp)
        out hout with h | h
    · exact absurd h (List.not_mem_nil _)
    · exact h
  · intro anchor pr cols s hmem hroot
    unfold Reconcile.removeUnfinishedAndSpawnSpans
    exact List.mem_append_left _
      (Reconcile.root_mem_foldl anchor pr cols ([], [], []) s hmem hroot)

/-- Witness for C2 amended: on the counterexample batch the emitted child is
traced back to the finished raw span id 3, and the root scope span of the
example trace is in the reconciled output. -/
theorem C2_witness :
    Reconcile.originates Fixtures.anchor0 7 [Fixtures.unfinishedRaw, Fixtures.childRaw]
      (({ Fixtures.childRaw with parent_id := 7 } : Reconcile.RawSpan).build_span
        Fixtures.anchor0) ∧
    ({ Fixtures.rootRaw with parent_id := 0 } : Reconcile.RawSpan).build_span Fixtures.anchor0
      ∈ Reconcile.removeUnfinishedAndSpawnSpans Fixtures.exampleCols 0 Fixtures.anchor0 :=
  ⟨C2_unfinished_pruning.1 Fixtures.anchor0 7 [Fixtures.unfinishedRaw, Fixtures.childRaw]
      [] (by decide) _ (by decide),
   C2_unfinished_pruning.2 Fixtures.anchor0 0 Fixtures.exampleCols Fixtures.rootRaw
      (by decide) (by decide)⟩

/-- C6 amended: the emit-on-drop guarantee holds for the trace_async handle
only: dropping its AsyncTraceInner while the collector's closed flag is false
submits exactly one span set holding exactly one terminal span for the parent
scope, carrying the captured parent id, state, related id, begin cycle and
event, with elapsed covering the parent's full lifetime up to the drop; when
the flag is true nothing is emitted. The AsyncHandle of src/thread.rs emits
nothing on drop in either case. -/
theorem C6_drop_emits_terminal_span :
    (∀ inner now, Legacy.AsyncTraceInner.dropSubmits inner false now =
      [{ spans := [{ id := inner.parent_id, state := inner.parent_state,
                     related_id := inner.parent_related_id,
                     begin_cycles := inner.parent_begin_cycles,
                     elapsed_cycles := wrapSub now inner.parent_begin_cycles,
                     event := inner.parent_event }],
         properties := Core.Properties.empty }]) ∧
    (∀ inner now, Legacy.AsyncTraceInner.dropSubmits inner true now = []) ∧
    (∀ h, Core.AsyncHandle.dropSubmits h = []) := by
  exact ⟨fun inner now => rfl, fun inner now => rfl, fun h => rfl⟩
